import Mathlib

/-
Shallow embedding of the session-registry-and-dispatch layer of
talk/ics/sdk/p2p/p2pclient.cc (class ics::p2p::P2PClient) together with
talk/oms/sdk/base/exception.cc.

Modelling choices:
* A peer-connection channel instance (P2PPeerConnectionChannel allocated by
  operator new inside GetPeerConnectionChannel) is identified by a natural
  number handle; the counter next_channel_ models the freshness of each
  allocation, so handle equality is channel-instance identity.
* pc_channels_ (std::unordered_map<std::string, shared_ptr<...>>) is an
  association list from remote id to channel handle; unordered_map key
  uniqueness corresponds to the fact that insertion happens only when find
  returned end.
* allowed_remote_ids_ (std::vector<std::string>) is a list of strings;
  membership tests mirror std::find over the vector.
* Calls made on collaborators (the channel, the event queue posting a failure
  callback) are recorded in an Effect list returned next to the new state;
  every public operation of the class is a pure function
  ClientState -> ClientState x List Effect.
* The callbacks themselves are opaque; whether the caller supplied an
  on_failure callback is the boolean on_failure_present, mirroring the
  'if (on_failure)' guards in the source.
-/

namespace P2P

/-- Error kinds from oms/base ExceptionType used by p2pclient.cc. -/
inductive ExceptionType where
  | kUnknown
  | kP2PClientRemoteNotExisted
  | kP2PClientRemoteNotAllowed
  deriving DecidableEq, Repr

/-- Exception as constructed in talk/oms/sdk/base/exception.cc: the
two-argument constructor stores the type and the message unchanged. -/
structure Exception where
  type_ : ExceptionType
  message_ : String
  deriving DecidableEq, Repr

/-- Default constructor Exception() delegates to
Exception(ExceptionType::kUnknown, "Unknown exception."). -/
def Exception.default : Exception :=
  ⟨ExceptionType.kUnknown, "Unknown exception."⟩

/-- Exception::Type() returns type_. -/
def Exception.Type (e : Exception) : ExceptionType := e.type_

/-- Exception::Message() returns message_. -/
def Exception.Message (e : Exception) : String := e.message_

/-- P2PPublication(that, target_id, stream): bound to the owning client (held
weakly, not part of the value), the target id and the stream. -/
structure P2PPublication where
  target_id : String
  stream : Nat
  deriving DecidableEq, Repr

/-- Calls the client makes on its collaborators, in program order. -/
inductive Effect where
  | postFailureTask (e : Exception)
  | channelPublish (chan : Nat) (stream : Nat)
  | channelSend (chan : Nat) (message : String)
  | channelStop (chan : Nat)
  | channelGetConnectionStats (chan : Nat)
  | channelUnpublish (chan : Nat) (stream : Nat)
  | channelIncomingSignaling (chan : Nat) (message : String)
  deriving DecidableEq, Repr

/-- The mutable state of one P2PClient: the allow list, the channel map and
the supply of fresh channel handles. -/
structure ClientState where
  allowed_remote_ids_ : List String
  pc_channels_ : List (String × Nat)
  next_channel_ : Nat
  deriving DecidableEq, Repr

/-- State right after the P2PClient constructor: both containers empty. -/
def initialState : ClientState := ⟨[], [], 0⟩

/-- pc_channels_.find(target_id): first entry with the given key. -/
def lookupChannel : List (String × Nat) → String → Option Nat
  | [], _ => none
  | p :: rest, id => if p.1 = id then some p.2 else lookupChannel rest id

/-- P2PClient::IsPeerConnectionChannelCreated. -/
def IsPeerConnectionChannelCreated (st : ClientState) (target_id : String) : Bool :=
  (lookupChannel st.pc_channels_ target_id).isSome

/-- P2PClient::GetPeerConnectionChannel: returns the existing channel if the
map has one for target_id, otherwise allocates a fresh channel, inserts it
and returns it. -/
def GetPeerConnectionChannel (st : ClientState) (target_id : String) :
    ClientState × Nat :=
  match lookupChannel st.pc_channels_ target_id with
  | some pcc => (st, pcc)
  | none =>
      let pcc := st.next_channel_
      ({ st with
          pc_channels_ := st.pc_channels_ ++ [(target_id, pcc)],
          next_channel_ := st.next_channel_ + 1 }, pcc)

/-- P2PClient::AddAllowedRemoteId: duplicate add logs and returns without
mutation, otherwise push_back. -/
def AddAllowedRemoteId (st : ClientState) (target_id : String) : ClientState :=
  if target_id ∈ st.allowed_remote_ids_ then st
  else { st with allowed_remote_ids_ := st.allowed_remote_ids_ ++ [target_id] }

/-- P2PClient::Stop: obtain the channel via GetPeerConnectionChannel,
delegate Stop to it, then erase target_id from pc_channels_ and erase all
occurrences of target_id from allowed_remote_ids_. -/
def Stop (st : ClientState) (target_id : String) : ClientState × List Effect :=
  let r := GetPeerConnectionChannel st target_id
  ({ r.1 with
      pc_channels_ := r.1.pc_channels_.filter (fun p => p.1 ≠ target_id),
      allowed_remote_ids_ :=
        r.1.allowed_remote_ids_.filter (fun s => s ≠ target_id) },
   [Effect.channelStop r.2])

/-- P2PClient::RemoveAllowedRemoteId: if target_id is not in
allowed_remote_ids_, post an asynchronous kP2PClientRemoteNotExisted failure
(when a failure callback was supplied) and return; otherwise delegate to
Stop. -/
def RemoveAllowedRemoteId (st : ClientState) (target_id : String)
    (on_failure_present : Bool) : ClientState × List Effect :=
  if target_id ∈ st.allowed_remote_ids_ then
    Stop st target_id
  else
    (st,
     if on_failure_present then
       [Effect.postFailureTask
         ⟨ExceptionType.kP2PClientRemoteNotExisted,
          "Trying to delete non-existed remote id."⟩]
     else [])

/-- P2PClient::Publish, synchronous part: gate on allowed_remote_ids_; when
not allowed post a kP2PClientRemoteNotAllowed failure (if supplied) without
touching state; when allowed obtain the channel and delegate Publish to it. -/
def Publish (st : ClientState) (target_id : String) (stream : Nat)
    (on_failure_present : Bool) : ClientState × List Effect :=
  if target_id ∈ st.allowed_remote_ids_ then
    let r := GetPeerConnectionChannel st target_id
    (r.1, [Effect.channelPublish r.2 stream])
  else
    (st,
     if on_failure_present then
       [Effect.postFailureTask
         ⟨ExceptionType.kP2PClientRemoteNotAllowed,
          "Publishing a stream cannot be done since the remote user is not allowed."⟩]
     else [])

/-- Outcome the peer-connection channel reports for a delegated publish. -/
inductive ChannelOutcome where
  | success
  | failure (e : Exception)
  deriving DecidableEq, Repr

/-- What the application observes from the callbacks wired by
P2PClient::Publish. -/
inductive PublishCallbackResult where
  | publicationDelivered (p : P2PPublication)
  | failureDelivered (e : Exception)
  | dropped
  deriving DecidableEq, Repr

/-- The continuation P2PClient::Publish passes to pcc->Publish: on channel
success, if on_success was supplied and weak_this.lock() succeeds, construct
P2PPublication(that, target_id, stream) and deliver it through on_success;
the caller's on_failure is handed to the channel unchanged, so a channel
failure reaches the application as that very exception. -/
def PublishContinuation (target_id : String) (stream : Nat)
    (on_success_present : Bool) (client_alive : Bool)
    (outcome : ChannelOutcome) : PublishCallbackResult :=
  match outcome with
  | ChannelOutcome.failure e => PublishCallbackResult.failureDelivered e
  | ChannelOutcome.success =>
      if on_success_present then
        if client_alive then
          PublishCallbackResult.publicationDelivered ⟨target_id, stream⟩
        else PublishCallbackResult.dropped
      else PublishCallbackResult.dropped

/-- P2PClient::Send: same gate as Publish; the not-allowed failure message is
the sending-specific one; when allowed obtain the channel and delegate
Send. -/
def Send (st : ClientState) (target_id : String) (message : String)
    (on_failure_present : Bool) : ClientState × List Effect :=
  if target_id ∈ st.allowed_remote_ids_ then
    let r := GetPeerConnectionChannel st target_id
    (r.1, [Effect.channelSend r.2 message])
  else
    (st,
     if on_failure_present then
       [Effect.postFailureTask
         ⟨ExceptionType.kP2PClientRemoteNotAllowed,
          "Sending a message cannot be done since the remote user is not allowed."⟩]
     else [])

/-- P2PClient::GetConnectionStats: no gate; obtain the channel via
GetPeerConnectionChannel (creating it when absent) and delegate. -/
def GetConnectionStats (st : ClientState) (target_id : String) :
    ClientState × List Effect :=
  let r := GetPeerConnectionChannel st target_id
  (r.1, [Effect.channelGetConnectionStats r.2])

/-- P2PClient::Unpublish: no gate; obtain the channel via
GetPeerConnectionChannel (creating it when absent) and delegate. -/
def Unpublish (st : ClientState) (target_id : String) (stream : Nat) :
    ClientState × List Effect :=
  let r := GetPeerConnectionChannel st target_id
  (r.1, [Effect.channelUnpublish r.2 stream])

/-- The reserved close payload compared against in P2PClient::OnMessage. -/
def chatClosedMessage : String := "\x7b\"type\":\"chat-closed\"\x7d"

/-- P2PClient::OnMessage: drop when remote_id is not allowed; drop a
chat-closed payload when no channel exists; otherwise obtain the channel and
deliver the message to OnIncomingSignalingMessage. -/
def OnMessage (st : ClientState) (message : String) (remote_id : String) :
    ClientState × List Effect :=
  if remote_id ∈ st.allowed_remote_ids_ then
    if message = chatClosedMessage ∧
        IsPeerConnectionChannelCreated st remote_id = false then
      (st, [])
    else
      let r := GetPeerConnectionChannel st remote_id
      (r.1, [Effect.channelIncomingSignaling r.2 message])
  else
    (st, [])

/-- One call on the signaling transport collaborator SendMessage, recording
which caller callbacks were passed along. -/
structure SignalingSendCall where
  message : String
  remote_id : String
  on_success_forwarded : Bool
  on_failure_forwarded : Bool
  deriving DecidableEq, Repr

/-- P2PClient::SendSignalingMessage: calls
signaling_channel_->SendMessage(message, remote_id, on_success, nullptr);
the caller's on_failure is replaced by nullptr (source comment:
TODO:fix on_failure). -/
def SendSignalingMessage (message : String) (remote_id : String) :
    SignalingSendCall :=
  ⟨message, remote_id, true, false⟩

/-- Observers are identified by address; a registration is its address. -/
def AddObserver (observers : List Nat) (observer : Nat) : List Nat :=
  observers ++ [observer]

/-- P2PClient::RemoveObserver: find_if by address then erase the iterator.
When the observer is absent the source erases the end iterator, which is
undefined behaviour; that branch is modelled as none. -/
def RemoveObserver (observers : List Nat) (observer : Nat) :
    Option (List Nat) :=
  if observer ∈ observers then some (observers.erase observer) else none

end P2P

namespace P2P

theorem lookupChannel_append_of_none (l : List (String × Nat)) (id : String)
    (c : Nat) (h : lookupChannel l id = none) :
    lookupChannel (l ++ [(id, c)]) id = some c := by
  induction l with
  | nil => simp [lookupChannel]
  | cons p rest ih =>
      by_cases hp : p.1 = id
      · simp [lookupChannel, hp] at h
      · simp only [lookupChannel, hp, if_false, List.cons_append] at h ⊢
        simp [lookupChannel, hp]
        exact ih h

theorem lookupChannel_filter_self (l : List (String × Nat)) (id : String) :
    lookupChannel (l.filter (fun p => p.1 ≠ id)) id = none := by
  induction l with
  | nil => rfl
  | cons p rest ih =>
      by_cases hp : p.1 = id
      · simpa [List.filter_cons, hp] using ih
      · simpa [List.filter_cons, hp, lookupChannel] using ih

theorem lookupChannel_none_of_not_mem_keys (l : List (String × Nat))
    (id : String) (h : id ∉ l.map Prod.fst) :
    lookupChannel l id = none := by
  induction l with
  | nil => rfl
  | cons p rest ih =>
      simp only [List.map_cons, List.mem_cons] at h
      push_neg at h
      have hp : ¬ p.1 = id := fun hq => h.1 hq.symm
      simp [lookupChannel, hp, ih h.2]

theorem not_mem_keys_of_lookupChannel_none (l : List (String × Nat))
    (id : String) (h : lookupChannel l id = none) :
    id ∉ l.map Prod.fst := by
  induction l with
  | nil => simp
  | cons p rest ih =>
      by_cases hp : p.1 = id
      · simp [lookupChannel, hp] at h
      · simp only [lookupChannel, hp, if_false] at h
        simp only [List.map_cons, List.mem_cons]
        push_neg
        refine ⟨?_, ih h⟩
        intro hq
        exact hp hq.symm

theorem getPCC_of_lookup_some (st : ClientState) (id : String) (c : Nat)
    (h : lookupChannel st.pc_channels_ id = some c) :
    GetPeerConnectionChannel st id = (st, c) := by
  simp [GetPeerConnectionChannel, h]

theorem lookup_after_getPCC (st : ClientState) (id : String) :
    lookupChannel (GetPeerConnectionChannel st id).1.pc_channels_ id =
      some (GetPeerConnectionChannel st id).2 := by
  unfold GetPeerConnectionChannel
  cases h : lookupChannel st.pc_channels_ id with
  | some c => simpa using h
  | none => simpa using lookupChannel_append_of_none _ _ _ h

theorem getPCC_allowed (st : ClientState) (id : String) :
    (GetPeerConnectionChannel st id).1.allowed_remote_ids_ =
      st.allowed_remote_ids_ := by
  unfold GetPeerConnectionChannel
  cases h : lookupChannel st.pc_channels_ id <;> rfl

theorem getPCC_keys_nodup (st : ClientState) (id : String)
    (h : (st.pc_channels_.map Prod.fst).Nodup) :
    ((GetPeerConnectionChannel st id).1.pc_channels_.map Prod.fst).Nodup := by
  unfold GetPeerConnectionChannel
  cases hl : lookupChannel st.pc_channels_ id with
  | some c => simpa using h
  | none =>
      have hnm := not_mem_keys_of_lookupChannel_none _ _ hl
      show (List.map Prod.fst
        (st.pc_channels_ ++ [(id, st.next_channel_)])).Nodup
      rw [List.map_append]
      refine List.Nodup.append h (List.nodup_singleton _) ?_
      intro a ha hb
      rw [List.map_cons, List.map_nil, List.mem_singleton] at hb
      subst hb
      exact hnm ha

end P2P

namespace P2P

theorem not_mem_filter_ne (l : List String) (id : String) :
    id ∉ l.filter (fun s => s ≠ id) := by
  intro h
  rcases List.mem_filter.mp h with ⟨-, hd⟩
  simp at hd

/-- Claim C2: for a target id outside the AuthorizationSet, Publish and Send
return with the state completely unchanged (so no Session entry is created
and nothing is mutated) and post one asynchronous failure task to the event
queue carrying kP2PClientRemoteNotAllowed; the Send message is exactly
"Sending a message cannot be done since the remote user is not allowed.". -/
theorem unauthorized_publish_send_fail (st : ClientState) (id : String)
    (stream : Nat) (msg : String) (h : id ∉ st.allowed_remote_ids_) :
    Publish st id stream true =
      (st, [Effect.postFailureTask
        ⟨ExceptionType.kP2PClientRemoteNotAllowed,
         "Publishing a stream cannot be done since the remote user is not allowed."⟩]) ∧
    Send st id msg true =
      (st, [Effect.postFailureTask
        ⟨ExceptionType.kP2PClientRemoteNotAllowed,
         "Sending a message cannot be done since the remote user is not allowed."⟩]) := by
  constructor <;> simp [Publish, Send, h]

theorem unauthorized_publish_send_fail_witness :
    Publish initialState "carol" 0 true =
      (initialState, [Effect.postFailureTask
        ⟨ExceptionType.kP2PClientRemoteNotAllowed,
         "Publishing a stream cannot be done since the remote user is not allowed."⟩]) ∧
    Send initialState "carol" "hi" true =
      (initialState, [Effect.postFailureTask
        ⟨ExceptionType.kP2PClientRemoteNotAllowed,
         "Sending a message cannot be done since the remote user is not allowed."⟩]) :=
  unauthorized_publish_send_fail initialState "carol" 0 "hi"
    (by simp [initialState])

/-- Claim C3: after Stop(id) the Session map has no entry for id and id is
not in the AuthorizationSet; the only collaborator call is the stop
delegated to the channel obtained before the removals; a subsequent
Send(id, msg) leaves the state unchanged and posts the
kP2PClientRemoteNotAllowed failure. -/
theorem stop_removes_session_and_authorization (st : ClientState)
    (id : String) (msg : String) :
    lookupChannel (Stop st id).1.pc_channels_ id = none ∧
    id ∉ (Stop st id).1.allowed_remote_ids_ ∧
    (Stop st id).2 = [Effect.channelStop (GetPeerConnectionChannel st id).2] ∧
    Send (Stop st id).1 id msg true =
      ((Stop st id).1,
       [Effect.postFailureTask
         ⟨ExceptionType.kP2PClientRemoteNotAllowed,
          "Sending a message cannot be done since the remote user is not allowed."⟩]) := by
  have hs : id ∉ (Stop st id).1.allowed_remote_ids_ :=
    not_mem_filter_ne _ id
  refine ⟨lookupChannel_filter_self _ id, hs, rfl, ?_⟩
  simp [Send, hs]

/-- Claim C4 (code bug in the source): SendSignalingMessage forwards the
message tagged with remote_id to the transport SendMessage and forwards
on_success, but the caller's on_failure is replaced by nullptr (the source
carries the comment TODO:fix on_failure), so a transport failure is never
forwarded to the caller. -/
theorem sendSignalingMessage_drops_failure_callback (msg rid : String) :
    (SendSignalingMessage msg rid).message = msg ∧
    (SendSignalingMessage msg rid).remote_id = rid ∧
    (SendSignalingMessage msg rid).on_success_forwarded = true ∧
    (SendSignalingMessage msg rid).on_failure_forwarded = false :=
  ⟨rfl, rfl, rfl, rfl⟩

/-- Claim C5: OnMessage drops the message with no state change when the
sender is not in the AuthorizationSet; drops a chat-closed payload with no
state change when no Session exists for the sender; otherwise obtains the
Session via GetPeerConnectionChannel and delivers the message to its
incoming-signaling handler. -/
theorem onMessage_spec (st : ClientState) (msg rid : String) :
    (rid ∉ st.allowed_remote_ids_ → OnMessage st msg rid = (st, [])) ∧
    (rid ∈ st.allowed_remote_ids_ → msg = chatClosedMessage →
      IsPeerConnectionChannelCreated st rid = false →
      OnMessage st msg rid = (st, [])) ∧
    (rid ∈ st.allowed_remote_ids_ →
      (msg ≠ chatClosedMessage ∨ IsPeerConnectionChannelCreated st rid = true) →
      OnMessage st msg rid =
        ((GetPeerConnectionChannel st rid).1,
         [Effect.channelIncomingSignaling
           (GetPeerConnectionChannel st rid).2 msg])) := by
  refine ⟨?_, ?_, ?_⟩
  · intro h
    simp [OnMessage, h]
  · intro h hm hc
    simp [OnMessage, h, hm, hc]
  · intro h hd
    rcases hd with hm | hc
    · simp [OnMessage, h, hm]
    · simp [OnMessage, h, hc]

theorem onMessage_spec_witness :
    OnMessage initialState "hello" "eve" = (initialState, []) ∧
    OnMessage (AddAllowedRemoteId initialState "eve") chatClosedMessage "eve" =
      (AddAllowedRemoteId initialState "eve", []) ∧
    OnMessage (AddAllowedRemoteId initialState "eve") "hello" "eve" =
      ((GetPeerConnectionChannel
          (AddAllowedRemoteId initialState "eve") "eve").1,
       [Effect.channelIncomingSignaling
         (GetPeerConnectionChannel
           (AddAllowedRemoteId initialState "eve") "eve").2 "hello"]) :=
  ⟨(onMessage_spec initialState "hello" "eve").1 (by simp [initialState]),
   (onMessage_spec (AddAllowedRemoteId initialState "eve")
       chatClosedMessage "eve").2.1 (by decide) rfl (by decide),
   (onMessage_spec (AddAllowedRemoteId initialState "eve")
       "hello" "eve").2.2 (by decide) (Or.inl (by decide))⟩

end P2P

namespace P2P

/-- Claim C6: RemoveAllowedRemoteId on an id outside the AuthorizationSet
posts one asynchronous kP2PClientRemoteNotExisted failure and returns the
state unchanged (neither the AuthorizationSet nor the Session map is
touched); on an id that is present it delegates to Stop, after which the
Session for the id is gone and the id has been removed from the set. -/
theorem removeAllowedRemoteId_spec (st : ClientState) (id : String) :
    (id ∉ st.allowed_remote_ids_ →
      RemoveAllowedRemoteId st id true =
        (st, [Effect.postFailureTask
          ⟨ExceptionType.kP2PClientRemoteNotExisted,
           "Trying to delete non-existed remote id."⟩])) ∧
    (id ∈ st.allowed_remote_ids_ →
      RemoveAllowedRemoteId st id true = Stop st id ∧
      lookupChannel (RemoveAllowedRemoteId st id true).1.pc_channels_ id =
        none ∧
      id ∉ (RemoveAllowedRemoteId st id true).1.allowed_remote_ids_) := by
  constructor
  · intro h
    simp [RemoveAllowedRemoteId, h]
  · intro h
    have he : RemoveAllowedRemoteId st id true = Stop st id := by
      simp [RemoveAllowedRemoteId, h]
    refine ⟨he, ?_, ?_⟩
    · rw [he]
      exact lookupChannel_filter_self _ id
    · rw [he]
      exact not_mem_filter_ne _ id

theorem removeAllowedRemoteId_spec_witness :
    RemoveAllowedRemoteId initialState "dave" true =
      (initialState, [Effect.postFailureTask
        ⟨ExceptionType.kP2PClientRemoteNotExisted,
         "Trying to delete non-existed remote id."⟩]) ∧
    (RemoveAllowedRemoteId (AddAllowedRemoteId initialState "bob") "bob"
        true =
      Stop (AddAllowedRemoteId initialState "bob") "bob" ∧
    lookupChannel
      (RemoveAllowedRemoteId (AddAllowedRemoteId initialState "bob") "bob"
        true).1.pc_channels_ "bob" = none ∧
    "bob" ∉ (RemoveAllowedRemoteId (AddAllowedRemoteId initialState "bob")
        "bob" true).1.allowed_remote_ids_) :=
  ⟨(removeAllowedRemoteId_spec initialState "dave").1 (by simp [initialState]),
   (removeAllowedRemoteId_spec (AddAllowedRemoteId initialState "bob")
      "bob").2 (by decide)⟩

/-- Claim C7: the callback P2PClient::Publish wires into the channel
delivers a P2PPublication only when the channel reported success, and the
delivered publication is bound exactly to the target id and the stream of
the call; when the channel reports a failure, that failure reaches the
application unchanged and no publication is ever delivered. -/
theorem publication_only_after_channel_success (t : String) (s : Nat)
    (osp alive : Bool) (oc : ChannelOutcome) :
    (∀ p, PublishContinuation t s osp alive oc =
        PublishCallbackResult.publicationDelivered p →
      oc = ChannelOutcome.success ∧ p = ⟨t, s⟩) ∧
    (∀ e, oc = ChannelOutcome.failure e →
      PublishContinuation t s osp alive oc =
        PublishCallbackResult.failureDelivered e) := by
  constructor
  · intro p hp
    cases oc with
    | failure e => simp [PublishContinuation] at hp
    | success =>
        refine ⟨rfl, ?_⟩
        cases osp with
        | false => simp [PublishContinuation] at hp
        | true =>
            cases alive with
            | false => simp [PublishContinuation] at hp
            | true =>
                simp [PublishContinuation] at hp
                exact hp.symm
  · intro e he
    subst he
    rfl

theorem publication_only_after_channel_success_witness :
    (ChannelOutcome.success = ChannelOutcome.success ∧
      (⟨"bob", 0⟩ : P2PPublication) = ⟨"bob", 0⟩) ∧
    PublishContinuation "bob" 0 true true
        (ChannelOutcome.failure Exception.default) =
      PublishCallbackResult.failureDelivered Exception.default :=
  ⟨(publication_only_after_channel_success "bob" 0 true true
      ChannelOutcome.success).1 ⟨"bob", 0⟩ rfl,
   (publication_only_after_channel_success "bob" 0 true true
      (ChannelOutcome.failure Exception.default)).2 Exception.default rfl⟩

/-- Claim C8: from any state whose allow list holds the id at most once,
the second of two AddAllowedRemoteId calls with the same id returns the
state of the first call unchanged (no mutation at all), and after the two
calls the AuthorizationSet holds exactly one entry for the id. -/
theorem addAllowedRemoteId_idempotent (st : ClientState) (id : String)
    (h : List.count id st.allowed_remote_ids_ ≤ 1) :
    AddAllowedRemoteId (AddAllowedRemoteId st id) id =
      AddAllowedRemoteId st id ∧
    List.count id
      (AddAllowedRemoteId (AddAllowedRemoteId st id) id).allowed_remote_ids_ =
      1 := by
  have hstep : ∀ st2 : ClientState, id ∈ st2.allowed_remote_ids_ →
      AddAllowedRemoteId st2 id = st2 := by
    intro st2 hmem
    simp [AddAllowedRemoteId, hmem]
  by_cases hm : id ∈ st.allowed_remote_ids_
  · have h1 := hstep st hm
    have hc : List.count id st.allowed_remote_ids_ = 1 := by
      have := List.count_pos_iff.mpr hm
      omega
    rw [h1, h1]
    exact ⟨rfl, hc⟩
  · have h1 : (AddAllowedRemoteId st id).allowed_remote_ids_ =
        st.allowed_remote_ids_ ++ [id] := by
      simp [AddAllowedRemoteId, hm]
    have hm2 : id ∈ (AddAllowedRemoteId st id).allowed_remote_ids_ := by
      rw [h1]
      simp
    refine ⟨hstep _ hm2, ?_⟩
    rw [hstep _ hm2, h1, List.count_append,
      List.count_eq_zero_of_not_mem hm]
    simp

theorem addAllowedRemoteId_idempotent_witness :
    AddAllowedRemoteId (AddAllowedRemoteId initialState "bob") "bob" =
      AddAllowedRemoteId initialState "bob" ∧
    List.count "bob"
      (AddAllowedRemoteId (AddAllowedRemoteId initialState "bob")
        "bob").allowed_remote_ids_ = 1 :=
  addAllowedRemoteId_idempotent initialState "bob" (by decide)

/-- Claim C10: when the observer is currently registered (matched by
address), RemoveObserver removes exactly the first matching registration:
the erase branch is taken (the result is some, so erasing the end iterator
is not reached), the list shrinks by one and the count of that address
drops by one. -/
theorem removeObserver_spec (obs : List Nat) (o : Nat) (h : o ∈ obs) :
    RemoveObserver obs o = some (obs.erase o) ∧
    (obs.erase o).length + 1 = obs.length ∧
    List.count o (obs.erase o) + 1 = List.count o obs := by
  refine ⟨by simp [RemoveObserver, h], ?_, ?_⟩
  · rw [List.length_erase_of_mem h]
    have := List.length_pos.mpr (List.ne_nil_of_mem h)
    omega
  · rw [List.count_erase_self]
    have := List.count_pos_iff.mpr h
    omega

theorem removeObserver_spec_witness :
    RemoveObserver [5, 7] 7 = some ([5, 7].erase 7) ∧
    ([5, 7].erase 7).length + 1 = [5, 7].length ∧
    List.count 7 ([5, 7].erase 7) + 1 = List.count 7 [5, 7] :=
  removeObserver_spec [5, 7] 7 (by decide)

end P2P

namespace P2P

/-- Claim C1 (counterexample): from the constructor state, with "mallory"
never added to the AuthorizationSet, GetConnectionStats("mallory") creates
a Session for "mallory" and leaves it in the Session map, so a Session
exists for an identity that was outside the AuthorizationSet at creation
time. -/
theorem getConnectionStats_creates_unauthorized_session :
    IsPeerConnectionChannelCreated
        (GetConnectionStats initialState "mallory").1 "mallory" = true ∧
    "mallory" ∉
      (GetConnectionStats initialState "mallory").1.allowed_remote_ids_ ∧
    "mallory" ∉ initialState.allowed_remote_ids_ := by
  decide

/-- Claim C1 (amended): for an identity outside the AuthorizationSet the
gated entry points Publish, Send and OnMessage leave the state unchanged
and so never create a Session, but GetConnectionStats and Unpublish reach
GetPeerConnectionChannel without any authorization gate and leave a
Session for the unauthorized identity in the map, while Stop creates one
transiently and erases it again before returning. -/
theorem unauthorized_session_creation_boundary (st : ClientState)
    (id msg : String) (stream : Nat) (ofp : Bool)
    (h : id ∉ st.allowed_remote_ids_) :
    (Publish st id stream ofp).1 = st ∧
    (Send st id msg ofp).1 = st ∧
    (OnMessage st msg id).1 = st ∧
    IsPeerConnectionChannelCreated (GetConnectionStats st id).1 id = true ∧
    IsPeerConnectionChannelCreated (Unpublish st id stream).1 id = true ∧
    lookupChannel (Stop st id).1.pc_channels_ id = none := by
  refine ⟨?_, ?_, ?_, ?_, ?_, ?_⟩
  · simp [Publish, h]
  · simp [Send, h]
  · simp [OnMessage, h]
  · simp [GetConnectionStats, IsPeerConnectionChannelCreated,
      lookup_after_getPCC]
  · simp [Unpublish, IsPeerConnectionChannelCreated, lookup_after_getPCC]
  · exact lookupChannel_filter_self _ id

theorem unauthorized_session_creation_boundary_witness :
    (Publish initialState "mallory" 0 true).1 = initialState ∧
    (Send initialState "mallory" "hi" true).1 = initialState ∧
    (OnMessage initialState "hi" "mallory").1 = initialState ∧
    IsPeerConnectionChannelCreated
      (GetConnectionStats initialState "mallory").1 "mallory" = true ∧
    IsPeerConnectionChannelCreated
      (Unpublish initialState "mallory" 0).1 "mallory" = true ∧
    lookupChannel (Stop initialState "mallory").1.pc_channels_ "mallory" =
      none :=
  unauthorized_session_creation_boundary initialState "mallory" "hi" 0 true
    (by simp [initialState])

/-- Claim C9: when a Session already exists for the id,
GetPeerConnectionChannel returns the existing handle with the state
untouched; it preserves key uniqueness of the Session map; and after an
authorized Publish, the subsequent Send for the same id runs on the very
same channel handle with no further state change. -/
theorem getOrCreate_existing_and_reuse (st : ClientState) (id : String)
    (c : Nat) (msg : String) (stream : Nat) :
    (lookupChannel st.pc_channels_ id = some c →
      GetPeerConnectionChannel st id = (st, c)) ∧
    ((st.pc_channels_.map Prod.fst).Nodup →
      ((GetPeerConnectionChannel st id).1.pc_channels_.map Prod.fst).Nodup) ∧
    (id ∈ st.allowed_remote_ids_ →
      Publish st id stream true =
        ((GetPeerConnectionChannel st id).1,
         [Effect.channelPublish (GetPeerConnectionChannel st id).2 stream]) ∧
      Send (GetPeerConnectionChannel st id).1 id msg true =
        ((GetPeerConnectionChannel st id).1,
         [Effect.channelSend (GetPeerConnectionChannel st id).2 msg])) := by
  refine ⟨fun hc => getPCC_of_lookup_some st id c hc,
    fun hn => getPCC_keys_nodup st id hn, fun h => ⟨?_, ?_⟩⟩
  · simp [Publish, h]
  · have hmem : id ∈ (GetPeerConnectionChannel st id).1.allowed_remote_ids_ := by
      rw [getPCC_allowed]
      exact h
    have hg : GetPeerConnectionChannel (GetPeerConnectionChannel st id).1 id =
        ((GetPeerConnectionChannel st id).1,
         (GetPeerConnectionChannel st id).2) :=
      getPCC_of_lookup_some _ _ _ (lookup_after_getPCC st id)
    simp [Send, hmem, hg]

theorem getOrCreate_existing_and_reuse_witness :
    GetPeerConnectionChannel (GetPeerConnectionChannel initialState "bob").1
        "bob" = ((GetPeerConnectionChannel initialState "bob").1, 0) ∧
    ((GetPeerConnectionChannel initialState "bob").1.pc_channels_.map
        Prod.fst).Nodup ∧
    (Publish (AddAllowedRemoteId initialState "bob") "bob" 0 true =
        ((GetPeerConnectionChannel (AddAllowedRemoteId initialState "bob")
            "bob").1,
         [Effect.channelPublish
           (GetPeerConnectionChannel (AddAllowedRemoteId initialState "bob")
             "bob").2 0]) ∧
      Send (GetPeerConnectionChannel (AddAllowedRemoteId initialState "bob")
          "bob").1 "bob" "hi" true =
        ((GetPeerConnectionChannel (AddAllowedRemoteId initialState "bob")
            "bob").1,
         [Effect.channelSend
           (GetPeerConnectionChannel (AddAllowedRemoteId initialState "bob")
             "bob").2 "hi"])) :=
  ⟨(getOrCreate_existing_and_reuse
      (GetPeerConnectionChannel initialState "bob").1 "bob" 0 "hi" 0).1
        (by decide),
   (getOrCreate_existing_and_reuse initialState "bob" 0 "hi" 0).2.1
     (by decide),
   (getOrCreate_existing_and_reuse (AddAllowedRemoteId initialState "bob")
      "bob" 0 "hi" 0).2.2 (by decide)⟩

end P2P
